import Mathlib

/-!
Shallow embedding of `src/itatrainingassignment.py` (SummerCodersSeleniumBot).

The script drives a browser with selenium. We embed the pure decision logic:
the browser session is modelled by explicit page states (lists of elements
carrying the attributes the code inspects), browser actions become event
traces, a Python exception that escapes a function becomes `Except.error`
carrying the exception message, and a `try`-handled failure becomes an
ordinary return value. Randomness (`random.choices`) is modelled by passing
the stream of choices explicitly.
-/

namespace ITA

/-- Embeds the enum `GoogleFormBotFieldType` (lines 25-33). -/
inductive GoogleFormBotFieldType
  | DATE
  | MULTI_CHECKBOX
  | MULTI_SELECT
  | SINGLE_CHECKBOX
  | TEXT
  deriving DecidableEq

/-- The Python values stored in the `value` slot of a field catalog entry:
`str | int | bool | List[...] | None` (line 606). Date values are lists of
ints such as `[12, 20, 1990]`. -/
inductive FieldValue
  | str (s : String)
  | int (n : Int)
  | bool (b : Bool)
  | list (l : List Int)
  | none
  deriving DecidableEq

/-- One entry of `self.fields`. At construction every entry is a Python list
`[kind, value, label]` (`triple`). `change_field` (line 642) assigns
`self.fields[ind] = value`, which replaces the whole list entry with the raw
value; `bare` embeds such a replaced entry. -/
inductive FieldEntry
  | triple (kind : GoogleFormBotFieldType) (value : FieldValue) (label : String)
  | bare (value : FieldValue)
  deriving DecidableEq

/-- `element[-1]` as used at line 631: the last component of a catalog entry.
For a triple that is its label; for a bare value there is no label string. -/
def entryLabel : FieldEntry → Option String
  | .triple _ _ l => some l
  | .bare _ => Option.none

/-- Embeds the fixed field catalog `self.fields` built in
`ITATrainingBot.__init__` (lines 606-625), in its stored order. -/
def defaultFields : List FieldEntry :=
  [ .triple .SINGLE_CHECKBOX (.bool true) "email",
    .triple .TEXT (.str "Thacker") "Last Name",
    .triple .TEXT (.str "Cameron") "First Name",
    .triple .TEXT (.str "Z") "Middle Initial",
    .triple .TEXT (.int 312931) "Student ID #",
    .triple .MULTI_SELECT .none "Country of Citizenship",
    .triple .MULTI_SELECT .none "Term for ELI ITA Attendance",
    .triple .MULTI_SELECT .none "ELI ITA Session",
    .triple .TEXT (.int 99) "IBT TOEFL Score (Speaking)",
    .triple .TEXT (.int 99) "IBT TOEFL Score (Total)",
    .triple .DATE (.list [12, 20, 1990]) "Begin Date of TA Contract",
    .triple .DATE (.list [12, 20, 1991]) "End Date of TA Contract",
    .triple .TEXT (.int 20000) "Amount of Stipend",
    .triple .TEXT (.int 100) "Percentage of Tuition",
    .triple .MULTI_CHECKBOX .none "Name of Student\x27s Program",
    .triple .TEXT (.str "Thacker Department") "Department Contact Name",
    .triple .TEXT (.str "20 Thacker Lane") "Department Contact Campus Address",
    .triple .TEXT (.str "123-401-9958") "Department Contact Person\x27s Telephone Number" ]

/-- Python dict assignment `d[k] = v`: overwrite the binding of `k` when
present, otherwise append a new binding. -/
def dictInsert (d : List (String × Nat)) (k : String) (v : Nat) :
    List (String × Nat) :=
  if d.any (fun p => p.1 == k) then
    d.map (fun p => if p.1 == k then (k, v) else p)
  else
    d ++ [(k, v)]

/-- Python dict lookup `d[k]` / `k in d`. -/
def dictFind (d : List (String × Nat)) (k : String) : Option Nat :=
  (d.find? (fun p => p.1 == k)).map (fun p => p.2)

/-- Embeds the loop at lines 630-631:
`for ind, element in enumerate(self.fields): self.lookup[element[-1]] = ind`. -/
def buildLookup (fields : List FieldEntry) : List (String × Nat) :=
  fields.enum.foldl
    (fun d p =>
      match entryLabel p.2 with
      | some l => dictInsert d l p.1
      | Option.none => d)
    []

/-- The state of an `ITATrainingBot` relevant to the field catalog: the
mutable `fields` list and the derived `lookup` table (lines 606-631). -/
structure ITATrainingBot where
  fields : List FieldEntry
  lookup : List (String × Nat)
  deriving DecidableEq

/-- The state after `ITATrainingBot.__init__` (lines 600-631). -/
def ITATrainingBot.init : ITATrainingBot :=
  { fields := defaultFields, lookup := buildLookup defaultFields }

/-- Embeds `ITATrainingBot.change_field` (lines 633-643):
`if field_label in self.lookup: self.fields[self.lookup[field_label]] = value`
then `return self`. Note the assignment replaces the whole catalog entry
(the `[kind, value, label]` list) with the bare value. -/
def ITATrainingBot.change_field (self : ITATrainingBot) (field_label : String)
    (value : FieldValue) : ITATrainingBot :=
  match dictFind self.lookup field_label with
  | some i => { self with fields := self.fields.set i (.bare value) }
  | Option.none => self

/-- The handler invocations `process_fields` can issue, one constructor per
branch of the dispatch at lines 651-663, each recording the arguments the
handler is called with. -/
inductive Action
  | enterText (label : String) (content : FieldValue)
  | multiCheckboxes (label : String)
  | multiselect (label : String)
  | singleCheckbox (label : String) (checked : FieldValue)
  | enterDate (label : String) (month day year : Int)
  deriving DecidableEq

/-- The dispatch of one loop iteration of `process_fields` (lines 651-663):
destructure `[field_type, value, label] = each_field` and branch on
`field_type`. `Option.none` embeds a Python runtime error: the entry is not
a three-element list, or a DATE value does not destructure as
`[month, day, year]`. -/
def dispatchField : FieldEntry → Option Action
  | .triple .TEXT v l => some (.enterText l v)
  | .triple .MULTI_CHECKBOX _ l => some (.multiCheckboxes l)
  | .triple .MULTI_SELECT _ l => some (.multiselect l)
  | .triple .SINGLE_CHECKBOX v l => some (.singleCheckbox l v)
  | .triple .DATE v l =>
      match v with
      | .list [m, d, y] => some (.enterDate l m d y)
      | _ => Option.none
  | .bare _ => Option.none

/-- Embeds `ITATrainingBot.process_fields` (lines 645-663): iterate the
stored `fields` list in order, dispatching each entry; the resulting trace
is the list of handler invocations in iteration order. -/
def process_fields (fields : List FieldEntry) : Option (List Action) :=
  fields.mapM dispatchField

/-- Browser side effects recorded as events: `element.send_keys(text)` from
`simulate_typing`, `element.send_keys(Keys.ENTER)` from `press_enter_key`,
and `element.click()`. Elements are identified by a numeric id. -/
inductive Event
  | typed (eid : Nat) (c : Char)
  | enterKey (eid : Nat)
  | click (eid : Nat)
  deriving DecidableEq

/-- Embeds `simulate_typing` (lines 157-177): send the content to the
element letter by letter (the random sleeps between letters have no
observable effect on the trace). -/
def simulate_typing (eid : Nat) (content : String) : List Event :=
  content.toList.map (fun c => Event.typed eid c)

/-- Embeds `press_enter_key` (lines 144-154): send ENTER to the element. -/
def press_enter_key (eid : Nat) : List Event :=
  [Event.enterKey eid]

/-- A `span` element of the form page as seen by the label-lookup code: its
`innerHTML` attribute (absent when `get_attribute` returns `None`). No
traversal results are part of the page state, because the parent
traversals at lines 428 and 497 raise on every matching span (see
`get_input_by_label` and `check_singular_textbox`). -/
structure Span where
  innerHTML : Option String
  deriving DecidableEq

/-- Python `str.lower()`: lower-case every character. -/
def pyLower (s : String) : String :=
  String.mk (s.data.map Char.toLower)

/-- Python `str.strip()`: drop whitespace from both ends. -/
def pyStrip (s : String) : String :=
  String.mk
    (((s.data.dropWhile Char.isWhitespace).reverse.dropWhile
        Char.isWhitespace).reverse)

/-- The span filter shared by the label-lookup methods (lines 423-424):
`x.get_attribute("innerHTML") is not None and
x.get_attribute("innerHTML").strip().lower() == label.lower()`. -/
def spanMatches (label : String) (s : Span) : Bool :=
  match s.innerHTML with
  | some h => pyLower (pyStrip h) == pyLower label
  | Option.none => false

/-- Embeds `GoogleFormBot.get_input_by_label` (lines 412-432): filter the
page spans by `spanMatches` and take the last match (`found_elements[-1]`).
When a span matches, line 428 executes
`found_element.find_element('../../../../')`, which passes the XPath string
as the `by` locator-strategy argument (with `value=None`); selenium rejects
that strategy and raises `InvalidArgumentException`, so the subsequent
input lookup and `return input_element` (lines 429-430) are unreachable and
`Except.ok (some _)` is never produced. When no span matches, the function
falls through to `return None`. -/
def get_input_by_label (spans : List Span) (label : String) :
    Except String (Option Nat) :=
  match (spans.filter (spanMatches label)).getLast? with
  | some _ => Except.error "InvalidArgumentException: invalid locator ../../../../"
  | Option.none => Except.ok Option.none

/-- Embeds `GoogleFormBot.check_singular_textbox` (lines 479-504). The
result pairs the list of clicks performed with the exception that escaped,
if any. With no spans, or no span matching the label, the method returns
having done nothing. When a span matches, line 497 executes
`found_label.find_element(By.XPATH, value='../../../')`; the trailing
slash makes the XPath syntactically invalid, so the call raises
`InvalidSelectorException` before the `checked` test at line 503 — the
checkbox search and click at lines 498-504 are unreachable and no click is
ever performed. -/
def check_singular_textbox (spans : List Span) (label : String)
    (checked : Bool) : List Event × Option String :=
  if spans.isEmpty then ([], Option.none)
  else
    match (spans.filter (spanMatches label)).getLast? with
    | Option.none => ([], Option.none)
    | some _ => ([], some "InvalidSelectorException: invalid xpath ../../../")

/-- `string.ascii_lowercase` from the Python standard library. -/
def asciiLowercase : List Char := "abcdefghijklmnopqrstuvwxyz".toList

/-- Embeds `generate_random_string` (lines 387-396):
`''.join(choices(ascii_lowercase, k=length))`. The stream of random choices
is passed explicitly as `picks : Nat → Fin 26`, the i-th choice naming an
index into `ascii_lowercase`. -/
def generate_random_string (picks : Nat → Fin 26) (length : Nat) : String :=
  String.mk ((List.range length).map (fun i => asciiLowercase.getD (picks i).val 'a'))

/-- Embeds `GoogleFormBot.enter_text_in_text_input` (lines 468-477): call
`get_input_by_label` and pass its result to `simulate_typing` with
`generate_random_string() if content is None else content`. An exception
from the lookup propagates. When the lookup returns `None`, the call
`simulate_typing(None, ...)` raises (`None` has no `send_keys`). The
remaining branch mirrors line 477 for a located input; it is unreachable
because `get_input_by_label` never returns an element (see its
doc comment), so this method never types anything. -/
def enter_text_in_text_input (spans : List Span) (label : String)
    (content : Option String) (picks : Nat → Fin 26) :
    Except String (List Event) :=
  match get_input_by_label spans label with
  | Except.error e => Except.error e
  | Except.ok (some eid) =>
      Except.ok (simulate_typing eid
        (match content with
         | some c => c
         | Option.none => generate_random_string picks 20))
  | Except.ok Option.none =>
      Except.error "AttributeError: NoneType object has no attribute send_keys"

/-- An `input` element as inspected by the login code: its `type` and `id`
attributes and its identity. -/
structure InputEl where
  type_attr : Option String
  id_attr : Option String
  eid : Nat
  deriving DecidableEq

/-- Embeds `SeleniumBot.enter_email_google_account` (lines 215-241): filter
the page inputs by `type == 'email'`; if none, raise
`Exception("Failed to find email or phone login element for google form")`;
else type the email into the last one and press ENTER. -/
def enter_email_google_account (inputs : List InputEl) (email_or_phone : String) :
    Except String (List Event) :=
  match (inputs.filter (fun i => i.type_attr == some "email")).getLast? with
  | Option.none =>
      Except.error "Failed to find email or phone login element for google form"
  | some el =>
      Except.ok (simulate_typing el.eid email_or_phone ++ press_enter_key el.eid)

/-- Embeds `SeleniumBot.enter_password_google_account` (lines 243-270):
filter the page inputs by `type == 'password'`; if none, raise; else type
the password into the last one and press ENTER. -/
def enter_password_google_account (inputs : List InputEl) (password : String) :
    Except String (List Event) :=
  match (inputs.filter (fun i => i.type_attr == some "password")).getLast? with
  | Option.none =>
      Except.error "Failed to find password element for google form"
  | some el =>
      Except.ok (simulate_typing el.eid password ++ press_enter_key el.eid)

/-- Embeds `SeleniumBot.log_in_google_account` (lines 272-281): the email
step, then the password step. The two steps read the browser after
different page loads, so each takes its own page state. -/
def log_in_google_account (page1 page2 : List InputEl)
    (email_or_phone password : String) : Except String (List Event) := do
  let e1 ← enter_email_google_account page1 email_or_phone
  let e2 ← enter_password_google_account page2 password
  Except.ok (e1 ++ e2)

/-- Embeds `SeleniumBot.enter_username_udel_account` (lines 283-304): raise
when the page has no inputs, raise when no input has `id == 'username'`,
else type the username into the last one (no ENTER press here). -/
def enter_username_udel_account (inputs : List InputEl) (username : String) :
    Except String (List Event) :=
  if inputs.isEmpty then
    Except.error "Unable to find any input elements in the udel credentials page, please try again"
  else
    match (inputs.filter (fun i => i.id_attr == some "username")).getLast? with
    | Option.none => Except.error "Unable to find username input"
    | some el => Except.ok (simulate_typing el.eid username)

/-- Embeds `SeleniumBot.enter_password_udel_account` (lines 306-328): like
the username step but filtering on `id == 'password'`, and followed by an
ENTER press. -/
def enter_password_udel_account (inputs : List InputEl) (password : String) :
    Except String (List Event) :=
  if inputs.isEmpty then
    Except.error "Unable to find any input elements in the udel credentials page, please try again"
  else
    match (inputs.filter (fun i => i.id_attr == some "password")).getLast? with
    | Option.none => Except.error "Unable to find password input"
    | some el => Except.ok (simulate_typing el.eid password ++ press_enter_key el.eid)

/-- Embeds `SeleniumBot.enter_otp_udel_account` (lines 330-351): filter on
`id == 'token'`, type the OTP code into the last match and press ENTER. -/
def enter_otp_udel_account (inputs : List InputEl) (otp_code : String) :
    Except String (List Event) :=
  if inputs.isEmpty then
    Except.error "Unable to find any input elements in the 2FA page, please try again"
  else
    match (inputs.filter (fun i => i.id_attr == some "token")).getLast? with
    | Option.none => Except.error "Unable to find token input"
    | some el => Except.ok (simulate_typing el.eid otp_code ++ press_enter_key el.eid)

/-- Embeds `SeleniumBot.log_in_udel_account` (lines 353-364): username step,
then password step, then OTP step, each against its own page state. -/
def log_in_udel_account (page1 page2 page3 : List InputEl)
    (username password otp_code : String) : Except String (List Event) := do
  let e1 ← enter_username_udel_account page1 username
  let e2 ← enter_password_udel_account page2 password
  let e3 ← enter_otp_udel_account page3 otp_code
  Except.ok (e1 ++ e2 ++ e3)

/-- The `SeleniumBot` state relevant to `navigate`: the stored `base_url`
(itatrainingassignment.py keeps `urlsplit(current_url)`; no claim depends on
the split components, so the model stores the URL the split was taken
from). -/
structure SeleniumBotState where
  base_url : String
  deriving DecidableEq

/-- Embeds `SeleniumBot.navigate` (lines 199-213). `getResult` is the
outcome of `self.driver.get(url)`: `some current` when the page load
succeeds and the browser then reports `current` as its URL, `Option.none`
when `driver.get` throws. On success the stored `base_url` is re-parsed
from the current URL and `True` is returned; the `except` branch prints and
returns `False`. -/
def navigate (st : SeleniumBotState) (getResult : Option String) :
    SeleniumBotState × Bool :=
  match getResult with
  | some current => ({ base_url := current }, true)
  | Option.none => (st, false)

/-- Embeds the enum `SeleniumBotWebdriverType` (lines 12-22). -/
inductive SeleniumBotWebdriverType
  | BRAVE
  | CHROME
  | CHROMIUM
  | EDGE
  | FIREFOX
  | INTERNET_EXPLORER
  | OPERA
  deriving DecidableEq

/-- The `specs` list tried by `try_drivers` (lines 123-131), in order. -/
def specsList : List SeleniumBotWebdriverType :=
  [.BRAVE, .CHROME, .CHROMIUM, .EDGE, .FIREFOX, .INTERNET_EXPLORER, .OPERA]

/-- The loop of `try_drivers` (lines 132-139): try `get_driver` on each spec
in order; on an exception print it and continue with the next spec. When
every spec fails the loop ends and the function returns `None`. `get`
models `get_driver`: `Except.ok d` an instantiated driver, `Except.error`
a raised exception. -/
def tryDriversAux (l : List SeleniumBotWebdriverType)
    (get : SeleniumBotWebdriverType → Except String Nat) : Option Nat :=
  match l with
  | [] => Option.none
  | s :: rest =>
      match get s with
      | Except.ok d => some d
      | Except.error _ => tryDriversAux rest get

/-- Embeds `try_drivers` (lines 115-139). -/
def try_drivers (get : SeleniumBotWebdriverType → Except String Nat) :
    Option Nat :=
  tryDriversAux specsList get

/-- C5: after `ITATrainingBot.__init__`, the labels of the catalog entries
are pairwise distinct, and the `lookup` mapping sends the label of every
catalog entry to the index of that entry in the catalog. -/
theorem init_labels_distinct_lookup_correct :
    (defaultFields.filterMap entryLabel).Nodup ∧
    ∀ i : Fin defaultFields.length,
      (entryLabel (defaultFields.get i)).bind
        (dictFind ITATrainingBot.init.lookup) = some i.val := by
  constructor
  · decide
  · decide

/-- C1: the claim fails on the code. For the present label `"Last Name"`,
`change_field` executes `self.fields[self.lookup[field_label]] = value`,
which replaces the whole `[kind, value, label]` entry at index 1 with the
bare value, instead of overriding only its value component; the entry kind
and label are lost, and a subsequent `process_fields` can no longer
destructure that entry (the code contradicts its own docstring, the spec,
and its only consumer, so this is a code bug). -/
theorem change_field_clobbers_entry :
    (ITATrainingBot.init.change_field "Last Name" (FieldValue.str "Smith")).fields.get? 1
        = some (FieldEntry.bare (FieldValue.str "Smith")) ∧
    (ITATrainingBot.init.change_field "Last Name" (FieldValue.str "Smith")).fields.get? 1
        ≠ some (FieldEntry.triple .TEXT (FieldValue.str "Smith") "Last Name") ∧
    process_fields
        (ITATrainingBot.init.change_field "Last Name" (FieldValue.str "Smith")).fields
        = Option.none := by
  refine ⟨by decide, by decide, by decide⟩

/-- C8: for a `field_label` absent from the `lookup` mapping,
`change_field` changes nothing and returns the same bot instance. -/
theorem change_field_unknown_label_noop (st : ITATrainingBot)
    (field_label : String) (value : FieldValue)
    (h : dictFind st.lookup field_label = Option.none) :
    st.change_field field_label value = st := by
  unfold ITATrainingBot.change_field
  rw [h]

/-- Witness for C8: `"Middle Name"` is not a catalog label, and
`change_field` with it is a no-op on the freshly constructed bot. -/
theorem change_field_unknown_label_noop_witness :
    dictFind ITATrainingBot.init.lookup "Middle Name" = Option.none ∧
    ITATrainingBot.init.change_field "Middle Name" (FieldValue.str "Q")
      = ITATrainingBot.init :=
  ⟨by decide,
   change_field_unknown_label_noop ITATrainingBot.init "Middle Name"
     (FieldValue.str "Q") (by decide)⟩

/-- C4: `process_fields` iterates the stored catalog in order and
dispatches each entry on its kind to exactly one handler — TEXT to
`enter_text_in_text_input` with the entry value, MULTI_CHECKBOX to
`select_multiple_checkboxes`, MULTI_SELECT to `select_multiselect_option`,
SINGLE_CHECKBOX to `check_singular_textbox` with the entry value, and DATE
to `enter_date` with the value destructured as month, day, year. The final
conjunct evaluates the whole trace on the constructed catalog, in stored
order. -/
theorem process_fields_dispatch :
    (∀ v l, dispatchField (.triple .TEXT v l) = some (.enterText l v)) ∧
    (∀ v l, dispatchField (.triple .MULTI_CHECKBOX v l)
        = some (.multiCheckboxes l)) ∧
    (∀ v l, dispatchField (.triple .MULTI_SELECT v l)
        = some (.multiselect l)) ∧
    (∀ v l, dispatchField (.triple .SINGLE_CHECKBOX v l)
        = some (.singleCheckbox l v)) ∧
    (∀ l m d y, dispatchField (.triple .DATE (.list [m, d, y]) l)
        = some (.enterDate l m d y)) ∧
    process_fields ITATrainingBot.init.fields = some
      [ .singleCheckbox "email" (.bool true),
        .enterText "Last Name" (.str "Thacker"),
        .enterText "First Name" (.str "Cameron"),
        .enterText "Middle Initial" (.str "Z"),
        .enterText "Student ID #" (.int 312931),
        .multiselect "Country of Citizenship",
        .multiselect "Term for ELI ITA Attendance",
        .multiselect "ELI ITA Session",
        .enterText "IBT TOEFL Score (Speaking)" (.int 99),
        .enterText "IBT TOEFL Score (Total)" (.int 99),
        .enterDate "Begin Date of TA Contract" 12 20 1990,
        .enterDate "End Date of TA Contract" 12 20 1991,
        .enterText "Amount of Stipend" (.int 20000),
        .enterText "Percentage of Tuition" (.int 100),
        .multiCheckboxes "Name of Student\x27s Program",
        .enterText "Department Contact Name" (.str "Thacker Department"),
        .enterText "Department Contact Campus Address" (.str "20 Thacker Lane"),
        .enterText "Department Contact Person\x27s Telephone Number"
          (.str "123-401-9958") ] :=
  ⟨fun _ _ => rfl, fun _ _ => rfl, fun _ _ => rfl, fun _ _ => rfl,
   fun _ _ _ _ => rfl, by decide⟩

/-- C3 is a code bug: the locator does match spans case-insensitively after
trimming the contents, and it does return `None` when no span matches, but
when spans match it never returns the last match's input — line 428 passes
the XPath `'../../../../'` as the locator strategy (no `By.XPATH`,
`value=None`), so `find_element` raises `InvalidArgumentException` on every
matching span. The theorem evaluates the embedded code: two spans match
`"email"` up to trim and case and the call raises, while the no-match page
yields `None`. -/
theorem get_input_by_label_divergence :
    get_input_by_label [⟨some " Email "⟩, ⟨some "EMAIL"⟩, ⟨Option.none⟩] "email"
      = Except.error "InvalidArgumentException: invalid locator ../../../../" ∧
    get_input_by_label [⟨some "zzz"⟩] "email" = Except.ok Option.none :=
  ⟨rfl, rfl⟩

/-- C10 is a code bug: with `checked = False` no click is performed (the
first conjunct proves no click is ever performed at all, whatever
`checked`), but the claimed click for `checked = True` with a matching
checkbox cannot happen — line 497's XPath `'../../../'` has a trailing
slash, which is syntactically invalid, so `find_element` raises
`InvalidSelectorException` on every matching span before the `checked`
test. The concrete conjuncts evaluate the embedded code: a matching span
raises (for both values of `checked`), a non-matching page does nothing. -/
theorem check_singular_textbox_divergence :
    (∀ (spans : List Span) (label : String) (checked : Bool),
        (check_singular_textbox spans label checked).1 = []) ∧
    check_singular_textbox [⟨some "email"⟩] "email" true
      = ([], some "InvalidSelectorException: invalid xpath ../../../") ∧
    check_singular_textbox [⟨some "email"⟩] "email" false
      = ([], some "InvalidSelectorException: invalid xpath ../../../") ∧
    check_singular_textbox [⟨some "zzz"⟩] "email" false = ([], Option.none) := by
  refine ⟨?_, rfl, rfl, rfl⟩
  intro spans label checked
  unfold check_singular_textbox
  split
  · rfl
  · split <;> rfl

/-- C7 is a code bug: `enter_text_in_text_input` never types anything. When
a span matches the label, `get_input_by_label` raises
`InvalidArgumentException` at line 428 before any input is located; when no
span matches, the lookup returns `None` and `simulate_typing(None, ...)`
raises `AttributeError`. The theorem evaluates the embedded code on both
paths, with provided content and with `content = None`. -/
theorem enter_text_in_text_input_divergence :
    enter_text_in_text_input [⟨some "email"⟩] "email" (some "Thacker")
        (fun _ => (0 : Fin 26))
      = Except.error "InvalidArgumentException: invalid locator ../../../../" ∧
    enter_text_in_text_input [⟨some "zzz"⟩] "email" Option.none
        (fun _ => (0 : Fin 26))
      = Except.error "AttributeError: NoneType object has no attribute send_keys" :=
  ⟨rfl, rfl⟩

/-- C6: the Google login flow enters the email then the password, each
followed by an ENTER key press; the UDel SSO flow enters the username, then
the password, then the one-time-password code, in that order (there the
ENTER presses follow only the password and OTP steps). -/
theorem login_flows_spec (gp1 gp2 up1 up2 up3 : List InputEl)
    (email gpassword username upassword otp : String)
    (ge pe ue upe te : InputEl)
    (hge : (gp1.filter (fun i => i.type_attr == some "email")).getLast? = some ge)
    (hpe : (gp2.filter (fun i => i.type_attr == some "password")).getLast? = some pe)
    (hu1 : up1.isEmpty = false)
    (hue : (up1.filter (fun i => i.id_attr == some "username")).getLast? = some ue)
    (hu2 : up2.isEmpty = false)
    (hupe : (up2.filter (fun i => i.id_attr == some "password")).getLast? = some upe)
    (hu3 : up3.isEmpty = false)
    (hte : (up3.filter (fun i => i.id_attr == some "token")).getLast? = some te) :
    log_in_google_account gp1 gp2 email gpassword =
      Except.ok ((simulate_typing ge.eid email ++ press_enter_key ge.eid) ++
        (simulate_typing pe.eid gpassword ++ press_enter_key pe.eid)) ∧
    log_in_udel_account up1 up2 up3 username upassword otp =
      Except.ok ((simulate_typing ue.eid username ++
          (simulate_typing upe.eid upassword ++ press_enter_key upe.eid)) ++
        (simulate_typing te.eid otp ++ press_enter_key te.eid)) := by
  constructor
  · unfold log_in_google_account enter_email_google_account
      enter_password_google_account
    rw [hge, hpe]
    rfl
  · unfold log_in_udel_account enter_username_udel_account
      enter_password_udel_account enter_otp_udel_account
    rw [hu1, hu2, hu3, hue, hupe, hte]
    rfl

/-- Witness for C6: both flows evaluated on concrete pages holding the
expected credential inputs. -/
theorem login_flows_spec_witness :
    log_in_google_account [⟨some "email", Option.none, 1⟩]
        [⟨some "password", Option.none, 2⟩] "user@example.com" "gpw" =
      Except.ok ((simulate_typing 1 "user@example.com" ++ press_enter_key 1) ++
        (simulate_typing 2 "gpw" ++ press_enter_key 2)) ∧
    log_in_udel_account [⟨Option.none, some "username", 3⟩]
        [⟨Option.none, some "password", 4⟩] [⟨Option.none, some "token", 5⟩]
        "udeluser" "upw" "123456" =
      Except.ok ((simulate_typing 3 "udeluser" ++
          (simulate_typing 4 "upw" ++ press_enter_key 4)) ++
        (simulate_typing 5 "123456" ++ press_enter_key 5)) :=
  login_flows_spec [⟨some "email", Option.none, 1⟩]
    [⟨some "password", Option.none, 2⟩] [⟨Option.none, some "username", 3⟩]
    [⟨Option.none, some "password", 4⟩] [⟨Option.none, some "token", 5⟩]
    "user@example.com" "gpw" "udeluser" "upw" "123456"
    ⟨some "email", Option.none, 1⟩ ⟨some "password", Option.none, 2⟩
    ⟨Option.none, some "username", 3⟩ ⟨Option.none, some "password", 4⟩
    ⟨Option.none, some "token", 5⟩
    (by decide) (by decide) (by decide) (by decide) (by decide) (by decide)
    (by decide) (by decide)

/-- C9: a failed `navigate` (the page load throws) returns `False` and
leaves the stored `base_url` unchanged; only a successful load re-sets
`base_url` from the browser's current URL and returns `True`. -/
theorem navigate_spec (st : SeleniumBotState) :
    navigate st Option.none = (st, false) ∧
    ∀ current, navigate st (some current) = (⟨current⟩, true) :=
  ⟨rfl, fun _ => rfl⟩

/-- C2 counterexample: `enter_email_google_account` on a page with inputs
but none of type `email` raises
`Exception("Failed to find email or phone login element for google form")`,
propagating it to the caller instead of printing and returning
`None`/`False`. -/
theorem enter_email_propagates_exception :
    enter_email_google_account [⟨some "text", Option.none, 0⟩] "user@example.com"
      = Except.error "Failed to find email or phone login element for google form" :=
  rfl

/-- Helper: when `get_driver` raises for every spec of the list, the
`try_drivers` loop prints each exception, falls through, and yields
`None`. -/
theorem tryDriversAux_all_error (l : List SeleniumBotWebdriverType)
    (get : SeleniumBotWebdriverType → Except String Nat)
    (h : ∀ s ∈ l, ∃ msg, get s = Except.error msg) :
    tryDriversAux l get = Option.none := by
  induction l with
  | nil => rfl
  | cons s rest ih =>
      obtain ⟨msg, hmsg⟩ := h s (List.mem_cons_self s rest)
      unfold tryDriversAux
      rw [hmsg]
      exact ih (fun x hx => h x (List.mem_cons_of_mem s hx))

/-- C2 amended: `navigate` and `try_drivers` handle failure by printing the
exception and returning `False` / `None`, but every element-locating
credential operation — `enter_email_google_account`,
`enter_password_google_account`, and the udel username, password and OTP
steps — raises an exception when the sought element is absent, propagating
it to the caller (the udel steps raise both on a page with no inputs at
all and on a non-empty page lacking the input with the sought id). -/
theorem failure_handling_spec (st : SeleniumBotState)
    (get : SeleniumBotWebdriverType → Except String Nat)
    (ginputs pinputs uinputs : List InputEl)
    (email gpassword username upassword otp : String)
    (hget : ∀ s ∈ specsList, ∃ msg, get s = Except.error msg)
    (hg : ∀ i ∈ ginputs, ¬ i.type_attr = some "email")
    (hp : ∀ i ∈ pinputs, ¬ i.type_attr = some "password")
    (hne : uinputs.isEmpty = false)
    (hu1 : ∀ i ∈ uinputs, ¬ i.id_attr = some "username")
    (hu2 : ∀ i ∈ uinputs, ¬ i.id_attr = some "password")
    (hu3 : ∀ i ∈ uinputs, ¬ i.id_attr = some "token") :
    navigate st Option.none = (st, false) ∧
    try_drivers get = Option.none ∧
    enter_email_google_account ginputs email =
      Except.error "Failed to find email or phone login element for google form" ∧
    enter_password_google_account pinputs gpassword =
      Except.error "Failed to find password element for google form" ∧
    enter_username_udel_account uinputs username =
      Except.error "Unable to find username input" ∧
    enter_password_udel_account uinputs upassword =
      Except.error "Unable to find password input" ∧
    enter_otp_udel_account uinputs otp =
      Except.error "Unable to find token input" ∧
    enter_username_udel_account [] username =
      Except.error "Unable to find any input elements in the udel credentials page, please try again" ∧
    enter_password_udel_account [] upassword =
      Except.error "Unable to find any input elements in the udel credentials page, please try again" ∧
    enter_otp_udel_account [] otp =
      Except.error "Unable to find any input elements in the 2FA page, please try again" := by
  have hgnil : ginputs.filter (fun i => i.type_attr == some "email") = [] :=
    List.filter_eq_nil_iff.mpr (fun a ha => by simpa using hg a ha)
  have hpnil : pinputs.filter (fun i => i.type_attr == some "password") = [] :=
    List.filter_eq_nil_iff.mpr (fun a ha => by simpa using hp a ha)
  have hu1nil : uinputs.filter (fun i => i.id_attr == some "username") = [] :=
    List.filter_eq_nil_iff.mpr (fun a ha => by simpa using hu1 a ha)
  have hu2nil : uinputs.filter (fun i => i.id_attr == some "password") = [] :=
    List.filter_eq_nil_iff.mpr (fun a ha => by simpa using hu2 a ha)
  have hu3nil : uinputs.filter (fun i => i.id_attr == some "token") = [] :=
    List.filter_eq_nil_iff.mpr (fun a ha => by simpa using hu3 a ha)
  refine ⟨rfl, tryDriversAux_all_error specsList get hget, ?_, ?_, ?_, ?_, ?_,
    rfl, rfl, rfl⟩
  · unfold enter_email_google_account
    rw [hgnil]
    rfl
  · unfold enter_password_google_account
    rw [hpnil]
    rfl
  · unfold enter_username_udel_account
    rw [hne, hu1nil]
    rfl
  · unfold enter_password_udel_account
    rw [hne, hu2nil]
    rfl
  · unfold enter_otp_udel_account
    rw [hne, hu3nil]
    rfl

/-- Witness for C2's amended statement: a driver oracle that always raises,
a Google page whose only input has type `text`, and a udel page whose only
input has id `other`. -/
theorem failure_handling_spec_witness :
    navigate ⟨"about:blank"⟩ Option.none = (⟨"about:blank"⟩, false) ∧
    try_drivers (fun _ => Except.error "no driver") = Option.none ∧
    enter_email_google_account [⟨some "text", Option.none, 0⟩] "user@example.com"
      = Except.error "Failed to find email or phone login element for google form" ∧
    enter_password_google_account [⟨some "text", Option.none, 0⟩] "gpw"
      = Except.error "Failed to find password element for google form" ∧
    enter_username_udel_account [⟨Option.none, some "other", 9⟩] "udeluser"
      = Except.error "Unable to find username input" ∧
    enter_password_udel_account [⟨Option.none, some "other", 9⟩] "upw"
      = Except.error "Unable to find password input" ∧
    enter_otp_udel_account [⟨Option.none, some "other", 9⟩] "123456"
      = Except.error "Unable to find token input" ∧
    enter_username_udel_account [] "udeluser" =
      Except.error "Unable to find any input elements in the udel credentials page, please try again" ∧
    enter_password_udel_account [] "upw" =
      Except.error "Unable to find any input elements in the udel credentials page, please try again" ∧
    enter_otp_udel_account [] "123456" =
      Except.error "Unable to find any input elements in the 2FA page, please try again" :=
  failure_handling_spec ⟨"about:blank"⟩ (fun _ => Except.error "no driver")
    [⟨some "text", Option.none, 0⟩] [⟨some "text", Option.none, 0⟩]
    [⟨Option.none, some "other", 9⟩]
    "user@example.com" "gpw" "udeluser" "upw" "123456"
    (fun _ _ => ⟨"no driver", rfl⟩) (by decide) (by decide) (by decide)
    (by decide) (by decide) (by decide)

end ITA
